import Mathlib

/-
Formal model of the financial-research-agent repository.

Source layout modelled here:
  * src/tools/__init__.py   -- tool registry composition and execute_tool
  * src/tools/market_tools.py -- get_stock_data, get_company_info,
                                 get_technical_indicators
  * src/tools/news_tool.py  -- get_stock_news
  * src/tools/regime_tool.py -- compute_features, detect_market_regime
  * src/agent.py            -- MAX_ITERATIONS, run_agent (the agent loop)

Modelling conventions (shallow embedding of the Python code):
  * Python floats are modelled over the rationals; a float NaN (and the
    infinities that arise from float division by zero) are modelled by the
    value none of the carrier FV := Option Rat.  The irrational float
    operations sqrt and log of numpy, the float pow 252 ** 0.5, and the
    wall-clock/timezone dependent datetime.fromtimestamp(..).strftime(..)
    are supplied by the external-world record Env, like the other external
    library calls (yfinance fetches, pickle loads, the pre-trained HMM).
  * External calls that may raise a Python exception are Except-valued in
    Env; the exception payload is modelled by its message string.
  * A Python dict is modelled by an association list that preserves
    insertion order, like Python dicts do.
  * Tool argument values produced by the completion client are strings
    (all tool input schemas in the source declare only string parameters).
-/

/-- JSON-serialisable Python values, as produced by the tool handlers:
strings, ints, floats (possibly NaN, see FV), booleans, None, lists and
(insertion-ordered) dicts. -/
inductive J where
  | s (v : String)
  | i (v : Int)
  | f (v : Option Rat)
  | b (v : Bool)
  | null
  | arr (vs : List J)
  | obj (kvs : List (String × J))

/-- Escape one character the way Python json.dumps escapes string
characters (our strings contain no other control characters). -/
def escChar (c : Char) : List Char :=
  if c = '\\' then ['\\', '\\']
  else if c = '"' then ['\\', '"']
  else if c = '\n' then ['\\', 'n']
  else if c = '\t' then ['\\', 't']
  else if c = '\r' then ['\\', 'r']
  else [c]

def escList : List Char → List Char
  | [] => []
  | c :: cs => escChar c ++ escList cs

/-- Python json.dumps string escaping. -/
def jsonEscape (st : String) : String :=
  String.mk (escList st.data)

/-- A JSON string literal: quote, escape, quote. -/
def qstr (st : String) : String :=
  "\"" ++ jsonEscape st ++ "\""

/-- Rendering of a float value by json.dumps (NaN is emitted bare, as
Python json.dumps does by default); the decimal rendering of a finite
float is approximated by the rational rendering. -/
def ratRender (q : Rat) : String :=
  if q.den = 1 then toString q.num else toString q.num ++ "/" ++ toString q.den

def fvRender : Option Rat → String
  | none => "NaN"
  | some q => ratRender q

mutual

/-- json.dumps with the default compact separators (", " and ": "). -/
def dumps : J → String
  | .s v => qstr v
  | .i v => toString v
  | .f v => fvRender v
  | .b true => "true"
  | .b false => "false"
  | .null => "null"
  | .arr vs => "[" ++ dumpsArr vs ++ "]"
  | .obj kvs => "\x7b" ++ dumpsObj kvs ++ "\x7d"

def dumpsArr : List J → String
  | [] => ""
  | [v] => dumps v
  | v :: rest => dumps v ++ ", " ++ dumpsArr rest

def dumpsObj : List (String × J) → String
  | [] => ""
  | [(k, v)] => qstr k ++ ": " ++ dumps v
  | (k, v) :: rest => qstr k ++ ": " ++ dumps v ++ ", " ++ dumpsObj rest

end

def nspaces : Nat → String
  | 0 => ""
  | n + 1 => " " ++ nspaces n

mutual

/-- json.dumps with indent=2: each nesting level indents by two more
spaces, items are separated by ",\n", keys by ": ". -/
def dumpsI (lvl : Nat) : J → String
  | .s v => qstr v
  | .i v => toString v
  | .f v => fvRender v
  | .b true => "true"
  | .b false => "false"
  | .null => "null"
  | .arr [] => "[]"
  | .arr (v :: rest) =>
      "[\n" ++ dumpsIArr lvl (v :: rest) ++ "\n" ++ nspaces (2 * lvl) ++ "]"
  | .obj [] => "\x7b\x7d"
  | .obj (kv :: rest) =>
      "\x7b\n" ++ dumpsIObj lvl (kv :: rest) ++ "\n" ++ nspaces (2 * lvl) ++ "\x7d"

def dumpsIArr (lvl : Nat) : List J → String
  | [] => ""
  | [v] => nspaces (2 * (lvl + 1)) ++ dumpsI (lvl + 1) v
  | v :: rest =>
      nspaces (2 * (lvl + 1)) ++ dumpsI (lvl + 1) v ++ ",\n" ++ dumpsIArr lvl rest

def dumpsIObj (lvl : Nat) : List (String × J) → String
  | [] => ""
  | [(k, v)] => nspaces (2 * (lvl + 1)) ++ qstr k ++ ": " ++ dumpsI (lvl + 1) v
  | (k, v) :: rest =>
      nspaces (2 * (lvl + 1)) ++ qstr k ++ ": " ++ dumpsI (lvl + 1) v ++ ",\n" ++
        dumpsIObj lvl rest

end

/-- json.dumps(result, indent=2, default=str), as called by execute_tool. -/
def dumpsIndent2 (v : J) : String :=
  dumpsI 0 v

/-- dict.get on an insertion-ordered association list. -/
def lookupDict {α : Type} : List (String × α) → String → Option α
  | [], _ => none
  | (k, v) :: rest, key => if k = key then some v else lookupDict rest key

/-- Field access on a J object (used only to state properties). -/
def jGet (v : J) (key : String) : Option J :=
  match v with
  | .obj kvs => lookupDict kvs key
  | _ => none

/-- Carrier for Python/numpy floats: none models NaN (and the infinities
that float division by zero produces). -/
abbrev FV := Option Rat

def fvAdd : FV → FV → FV
  | some a, some b => some (a + b)
  | _, _ => none

def fvSub : FV → FV → FV
  | some a, some b => some (a - b)
  | _, _ => none

def fvMul : FV → FV → FV
  | some a, some b => some (a * b)
  | _, _ => none

/-- Float division; numpy division by zero yields inf/NaN (not an
exception), both modelled by none. -/
def fvDiv : FV → FV → FV
  | some a, some b => if b = 0 then none else some (a / b)
  | _, _ => none

def fvNeg : FV → FV
  | some a => some (-a)
  | none => none

/-- Float comparison: any comparison with NaN is False in Python. -/
def fvGt : FV → FV → Bool
  | some a, some b => decide (b < a)
  | _, _ => false

def fvLt : FV → FV → Bool
  | some a, some b => decide (a < b)
  | _, _ => false

def fvGe : FV → FV → Bool
  | some a, some b => decide (b ≤ a)
  | _, _ => false

def fvLe : FV → FV → Bool
  | some a, some b => decide (a ≤ b)
  | _, _ => false

/-- Python round(x, n) over the rationals: round half to even at n
decimal digits (Python's float rounding, up to binary representation
noise which the rational model does not reproduce). -/
def pyRound (x : Rat) (n : Nat) : Rat :=
  let p : Rat := ((10 : Nat) ^ n : Nat)
  let y := x * p
  let fl : Int := y.floor
  let frac := y - (fl : Rat)
  let r : Int :=
    if frac > 1 / 2 then fl + 1
    else if frac < 1 / 2 then fl
    else if fl % 2 = 0 then fl else fl + 1
  (r : Rat) / p

def pyRoundF (x : FV) (n : Nat) : FV :=
  match x with
  | none => none
  | some q => some (pyRound q n)

/-- Python int(x) truncates toward zero. -/
def truncInt (x : Rat) : Int :=
  if x < 0 then -((-x).floor) else x.floor

/-- Series.mean() with pandas' default skipna=True: NaN entries are
ignored; the mean of no observations is NaN. -/
def seriesMean (xs : List FV) : FV :=
  let vs := xs.filterMap id
  if vs.length = 0 then none
  else some (vs.foldl (· + ·) 0 / (vs.length : Rat))

def sumSqDev (m : Rat) (vs : List Rat) : Rat :=
  vs.foldl (fun acc x => acc + (x - m) * (x - m)) 0

/-- Sample variance with ddof=1 (the pandas default) of a list of defined
observations; NaN when fewer than two observations. -/
def sampleVar (vs : List Rat) : FV :=
  if vs.length ≤ 1 then none
  else
    let m := vs.foldl (· + ·) 0 / (vs.length : Rat)
    some (sumSqDev m vs / ((vs.length : Rat) - 1))

/-- Series.std() with skipna=True and ddof=1; sq is the external float
square root (supplied by Env). -/
def seriesStd (sq : Rat → Rat) (xs : List FV) : FV :=
  match sampleVar (xs.filterMap id) with
  | none => none
  | some v => some (sq v)

/-- Series.diff(): first entry NaN, then elementwise x[i] - x[i-1]. -/
def diffAux (prev : FV) : List FV → List FV
  | [] => []
  | x :: rest => fvSub x prev :: diffAux x rest

def seriesDiff (xs : List FV) : List FV :=
  match xs with
  | [] => []
  | x :: rest => none :: diffAux x rest

/-- Series.pct_change(): first entry NaN, then x[i]/x[i-1] - 1. -/
def pctAux (prev : FV) : List FV → List FV
  | [] => []
  | x :: rest => fvSub (fvDiv x prev) (some 1) :: pctAux x rest

def pctChange (xs : List FV) : List FV :=
  match xs with
  | [] => []
  | x :: rest => none :: pctAux x rest

/-- Series.shift(1): first entry NaN, the rest shifted down by one. -/
def seriesShift1 (xs : List FV) : List FV :=
  match xs with
  | [] => []
  | _ :: _ => none :: xs.dropLast

/-- The mean of one fixed-size rolling window: NaN when the window
contains a NaN (pandas rolling with the default min_periods). -/
def windowMean (vs : List FV) : FV :=
  let ds := vs.filterMap id
  if ds.length = vs.length ∧ vs.length ≠ 0 then
    some (ds.foldl (· + ·) 0 / (ds.length : Rat))
  else none

/-- Series.rolling(w).mean(): positions before the window fills are NaN. -/
def rollingMean (w : Nat) (xs : List FV) : List FV :=
  (List.range xs.length).map fun idx =>
    if idx + 1 < w then none
    else windowMean ((xs.drop (idx + 1 - w)).take w)

/-- The sample std of one fixed-size rolling window. -/
def windowStd (sq : Rat → Rat) (vs : List FV) : FV :=
  let ds := vs.filterMap id
  if ds.length = vs.length then
    match sampleVar ds with
    | none => none
    | some v => some (sq v)
  else none

/-- Series.rolling(w).std() with ddof=1. -/
def rollingStd (sq : Rat → Rat) (w : Nat) (xs : List FV) : List FV :=
  (List.range xs.length).map fun idx =>
    if idx + 1 < w then none
    else windowStd sq ((xs.drop (idx + 1 - w)).take w)

/-- Series.ewm(span, adjust=False).mean() on a NaN-free series. -/
def ewmAux (a : Rat) (prev : Rat) : List Rat → List Rat
  | [] => []
  | x :: rest =>
      let y := (1 - a) * prev + a * x
      y :: ewmAux a y rest

def ewmMean (span : Nat) : List Rat → List Rat
  | [] => []
  | x :: rest => x :: ewmAux (2 / ((span : Rat) + 1)) x rest

/-- Series indexing s.iloc[-1]; raises IndexError on an empty series. -/
def ilocLast {α : Type} : List α → Except String α
  | [] => .error "IndexError: single positional indexer is out-of-bounds"
  | [x] => .ok x
  | _ :: y :: rest => ilocLast (y :: rest)

/-- Negative indexing s[-k] (k ≥ 1); raises IndexError when out of range. -/
def ilocNeg {α : Type} (xs : List α) (k : Nat) : Except String α :=
  if h : 1 ≤ k ∧ k ≤ xs.length then
    .ok (xs.get ⟨xs.length - k, by omega⟩)
  else .error "IndexError: index out of range"

/-- Non-negative indexing s[i]; raises IndexError when out of range. -/
def pyIndex {α : Type} (xs : List α) (idx : Nat) : Except String α :=
  if h : idx < xs.length then .ok (xs.get ⟨idx, h⟩)
  else .error "IndexError: index out of range"

/-- One row of a yfinance OHLCV DataFrame.  The DatetimeIndex entry is
carried as its "%Y-%m-%d"-formatted date string; yfinance price rows
carry no NaN, so the numeric columns are plain rationals. -/
structure Bar where
  date : String
  open_ : Rat
  high : Rat
  low : Rat
  close : Rat
  volume : Rat

/-- One entry of the yfinance news feed, keeping exactly the fields
src/tools/news_tool.py reads.  A missing dict key is none; the nested
lookups content["provider"]["displayName"] and
content["canonicalUrl"]["url"] are collapsed to one optional field each
(absence of the outer or the inner key both fall through to the item
field, as in the source's chained .get defaults). -/
structure NewsItem where
  content_title : Option String
  item_title : Option String
  provider_displayName : Option String
  item_publisher : Option String
  content_pubDate : Option String
  providerPublishTime : Option Int
  content_summary : Option String
  item_summary : Option String
  canonicalUrl_url : Option String
  item_link : Option String

/-- The pre-trained pickled HMM of src/tools/regime_tool.py: an external
artifact, modelled by its observable interface.  predict and
predict_proba may raise (for instance on a feature-dimension mismatch). -/
structure HmmModel where
  n_components : Nat
  predict : List (List Rat) → Except String (List Nat)
  predict_proba : List (List Rat) → Except String (List (List Rat))
  transmat : List (List Rat)

/-- The pickled feature scaler: scaler.transform may raise. -/
structure Scaler where
  transform : List (List Rat) → Except String (List (List Rat))

/-- The external world as seen by the tool handlers: the yfinance
fetches (raising modelled as .error with the exception message), the
pickled model artifacts, and the float library operations that have no
exact rational counterpart. -/
structure Env where
  history : String → String → Except String (List Bar)
  news : String → Except String (List NewsItem)
  info : String → Except String (List (String × J))
  modelExists : Bool
  scalerExists : Bool
  loadModel : Except String HmmModel
  loadScaler : Except String Scaler
  sqrt : Rat → Rat
  log : Rat → Rat
  fmtTimestamp : Int → String
  home : String

/-- np.log lifted to FV: nonpositive arguments give -inf/NaN (none). -/
def logFV (env : Env) : FV → FV
  | none => none
  | some v => if v ≤ 0 then none else some (env.log v)

/-- str.upper() (tickers are ASCII). -/
def pyUpper (st : String) : String :=
  st.toUpper

/-- Build one article dict of get_stock_news (src/tools/news_tool.py,
lines 54-81), field insertion order as in the source. -/
def buildArticle (env : Env) (item : NewsItem) : J :=
  let title := item.content_title.getD (item.item_title.getD "N/A")
  let publisher := item.provider_displayName.getD (item.item_publisher.getD "N/A")
  let dateField : List (String × J) :=
    match item.content_pubDate with
    | some pd =>
        if pd = "" then []
        else [("date", J.s (pd.take 16))]
    | none =>
        match item.providerPublishTime with
        | some ts =>
            if ts = 0 then []
            else [("date", J.s (env.fmtTimestamp ts))]
        | none => []
  let summaryField : List (String × J) :=
    match item.content_summary.orElse (fun _ => item.item_summary) with
    | some sm => if sm = "" then [] else [("summary", J.s (sm.take 200))]
    | none => []
  let linkField : List (String × J) :=
    match item.canonicalUrl_url.orElse (fun _ => item.item_link) with
    | some lk => if lk = "" then [] else [("link", J.s lk)]
    | none => []
  J.obj ([("title", J.s title), ("publisher", J.s publisher)] ++
    dateField ++ summaryField ++ linkField)

/-- The body of get_stock_news inside its try block
(src/tools/news_tool.py, lines 40-87). -/
def get_stock_news_body (env : Env) (ticker : String) : Except String J := do
  let news ← env.news ticker
  match news with
  | [] =>
    .ok (J.obj [("ticker", J.s (pyUpper ticker)),
      ("article_count", J.i 0),
      ("articles", J.arr []),
      ("note", J.s "No recent news found for this ticker.")])
  | _ :: _ =>
    let articles := (news.take 8).map (buildArticle env)
    .ok (J.obj [("ticker", J.s (pyUpper ticker)),
      ("article_count", J.i articles.length),
      ("articles", J.arr articles)])

/-- get_stock_news (src/tools/news_tool.py, lines 38-90): the whole body
runs inside try/except Exception, reduced to an error payload. -/
def get_stock_news (env : Env) (ticker : String) : J :=
  match get_stock_news_body env ticker with
  | .ok d => d
  | .error e => J.obj [("error", J.s ("Failed to fetch news: " ++ e))]

/-- dict.get(key, default) on a J dict. -/
def pyGet (kvs : List (String × J)) (key : String) (dflt : J) : J :=
  (lookupDict kvs key).getD dflt

/-- Python value slicing v[:n]: defined on strings (and lists); any
other value raises TypeError. -/
def jSlice (v : J) (n : Nat) : Except String J :=
  match v with
  | .s st => .ok (J.s (st.take n))
  | .arr vs => .ok (J.arr (vs.take n))
  | _ => .error "TypeError: object is not subscriptable"

/-- The body of get_company_info inside its try block
(src/tools/market_tools.py, lines 131-149). -/
def get_company_info_body (env : Env) (ticker : String) : Except String J := do
  let info ← env.info ticker
  let summary ← jSlice (pyGet info "longBusinessSummary" (J.s "N/A")) 500
  .ok (J.obj [("ticker", J.s (pyUpper ticker)),
    ("name", pyGet info "longName" (J.s "N/A")),
    ("sector", pyGet info "sector" (J.s "N/A")),
    ("industry", pyGet info "industry" (J.s "N/A")),
    ("market_cap", pyGet info "marketCap" (J.s "N/A")),
    ("pe_ratio", pyGet info "trailingPE" (J.s "N/A")),
    ("forward_pe", pyGet info "forwardPE" (J.s "N/A")),
    ("dividend_yield", pyGet info "dividendYield" (J.s "N/A")),
    ("52_week_high", pyGet info "fiftyTwoWeekHigh" (J.s "N/A")),
    ("52_week_low", pyGet info "fiftyTwoWeekLow" (J.s "N/A")),
    ("avg_analyst_rating", pyGet info "recommendationKey" (J.s "N/A")),
    ("business_summary", summary)])

/-- get_company_info (src/tools/market_tools.py, lines 129-151). -/
def get_company_info (env : Env) (ticker : String) : J :=
  match get_company_info_body env ticker with
  | .ok d => d
  | .error e => J.obj [("error", J.s e)]

/-- The last element of a nonempty list, written with an explicit head so
no default value is needed (models .iloc[-1] on a DataFrame already
checked to be nonempty). -/
def lastOf {α : Type} (x : α) : List α → α
  | [] => x
  | y :: rest => lastOf y rest

/-- The body of get_stock_data inside its try block
(src/tools/market_tools.py, lines 95-124). -/
def get_stock_data_body (env : Env) (ticker period : String) : Except String J := do
  let df ← env.history ticker period
  match df with
  | [] => .ok (J.obj [("error",
      J.s ("No data found for ticker \x27" ++ ticker ++ "\x27"))])
  | first :: rest =>
    let latest := lastOf first rest
    let closes : List FV := (first :: rest).map (fun b => some b.close)
    let price_change : FV :=
      fvMul (fvDiv (some (latest.close - first.close)) (some first.close)) (some 100)
    let volatility : FV :=
      fvMul (fvMul (seriesStd env.sqrt (pctChange closes)) (some (env.sqrt 252)))
        (some 100)
    let recent := (first :: rest).drop ((first :: rest).length - 10)
    let highs := (first :: rest).map Bar.high
    let lows := (first :: rest).map Bar.low
    let volumes := (first :: rest).map Bar.volume
    .ok (J.obj [("ticker", J.s (pyUpper ticker)),
      ("period", J.s period),
      ("current_price", J.f (some (pyRound latest.close 2))),
      ("period_high", J.f (some (pyRound (highs.foldl max first.high) 2))),
      ("period_low", J.f (some (pyRound (lows.foldl min first.low) 2))),
      ("price_change_pct", J.f (pyRoundF price_change 2)),
      ("annualized_volatility_pct", J.f (pyRoundF volatility 2)),
      ("avg_daily_volume", J.i (truncInt
        (volumes.foldl (· + ·) 0 / (volumes.length : Rat)))),
      ("recent_prices", J.obj [
        ("Close", J.obj (recent.map fun b => (b.date, J.f (some (pyRound b.close 2))))),
        ("Volume", J.obj (recent.map fun b => (b.date, J.f (some b.volume))))]),
      ("data_points", J.i ((first :: rest).length))])

/-- get_stock_data (src/tools/market_tools.py, lines 93-126). -/
def get_stock_data (env : Env) (ticker period : String) : J :=
  match get_stock_data_body env ticker period with
  | .ok d => d
  | .error e => J.obj [("error", J.s e)]

/-- The body of get_technical_indicators inside its try block
(src/tools/market_tools.py, lines 156-222).  The pandas expressions are
translated elementwise over the FV float model; .iloc[-2], which can
raise IndexError on a one-row frame, is modelled by ilocNeg. -/
def get_technical_indicators_body (env : Env) (ticker : String) :
    Except String J := do
  let df ← env.history ticker "1y"
  match df with
  | [] => .ok (J.obj [("error",
      J.s ("No data found for ticker \x27" ++ ticker ++ "\x27"))])
  | _ :: _ =>
    let close : List Rat := df.map Bar.close
    let closeFV : List FV := close.map some
    let sma_20 ← ilocLast (rollingMean 20 closeFV)
    let sma_50 ← ilocLast (rollingMean 50 closeFV)
    let sma_200 ← ilocLast (rollingMean 200 closeFV)
    let delta := seriesDiff closeFV
    let gain := rollingMean 14 (delta.map fun d => if fvGt d (some 0) then d else some 0)
    let loss := rollingMean 14
      ((delta.map fun d => if fvLt d (some 0) then d else some 0).map fvNeg)
    let rs := List.zipWith fvDiv gain loss
    let rsi := rs.map fun r => fvSub (some 100) (fvDiv (some 100) (fvAdd (some 1) r))
    let rsi_value ← ilocLast rsi
    let ema_12 := ewmMean 12 close
    let ema_26 := ewmMean 26 close
    let macd_line := List.zipWith (· - ·) ema_12 ema_26
    let signal_line := ewmMean 9 macd_line
    let macd_histogram := List.zipWith (· - ·) macd_line signal_line
    let bb_middle := sma_20
    let bb_std ← ilocLast (rollingStd env.sqrt 20 closeFV)
    let bb_upper := fvAdd bb_middle (fvMul (some 2) bb_std)
    let bb_lower := fvSub bb_middle (fvMul (some 2) bb_std)
    let current_price ← ilocLast close
    let trendMA : List String :=
      if fvGt (some current_price) sma_50 && fvGt sma_50 sma_200 then
        ["Bullish: Price above SMA50 and SMA200 (golden cross territory)"]
      else if fvLt (some current_price) sma_50 && fvLt sma_50 sma_200 then
        ["Bearish: Price below SMA50 and SMA200 (death cross territory)"]
      else []
    let trendRSI : List String :=
      if fvGt rsi_value (some 70) then
        ["RSI overbought (>70): Potential pullback"]
      else if fvLt rsi_value (some 30) then
        ["RSI oversold (<30): Potential bounce"]
      else []
    let h1 ← ilocLast macd_histogram
    let trendMACD : List String ←
      if h1 > 0 then do
        let h2 ← ilocNeg macd_histogram 2
        pure (if h2 ≤ 0 then
          ["MACD bullish crossover (histogram turned positive)"] else [])
      else if h1 < 0 then do
        let h2 ← ilocNeg macd_histogram 2
        pure (if h2 ≥ 0 then
          ["MACD bearish crossover (histogram turned negative)"] else [])
      else pure []
    let trend_signals := trendMA ++ trendRSI ++ trendMACD
    let macd_last ← ilocLast macd_line
    let signal_last ← ilocLast signal_line
    .ok (J.obj [("ticker", J.s (pyUpper ticker)),
      ("current_price", J.f (some (pyRound current_price 2))),
      ("sma_20", J.f (pyRoundF sma_20 2)),
      ("sma_50", J.f (pyRoundF sma_50 2)),
      ("sma_200", J.f (pyRoundF sma_200 2)),
      ("rsi_14", J.f (pyRoundF rsi_value 2)),
      ("macd", J.f (some (pyRound macd_last 2))),
      ("macd_signal", J.f (some (pyRound signal_last 2))),
      ("macd_histogram", J.f (some (pyRound h1 2))),
      ("bollinger_upper", J.f (pyRoundF bb_upper 2)),
      ("bollinger_middle", J.f (pyRoundF bb_middle 2)),
      ("bollinger_lower", J.f (pyRoundF bb_lower 2)),
      ("trend_signals",
        J.arr ((if trend_signals = [] then ["Neutral / no strong signals"]
                else trend_signals).map J.s))])

/-- get_technical_indicators (src/tools/market_tools.py, lines 154-224). -/
def get_technical_indicators (env : Env) (ticker : String) : J :=
  match get_technical_indicators_body env ticker with
  | .ok d => d
  | .error e => J.obj [("error", J.s e)]

/-- One row the regime pipeline keeps after df.dropna(): the index date,
the Close and the six engineered feature columns, all NaN-free. -/
structure FeatureRow where
  date : String
  close : Rat
  log_return : Rat
  vol_21d : Rat
  volRatio : Rat
  rsi : Rat
  ma_distance : Rat

/-- df.dropna() over the feature frame: keep exactly the rows where all
added feature columns are defined (the OHLCV columns carry no NaN). -/
def dropnaRows : List Bar → List FV → List FV → List FV → List FV → List FV →
    List FV → List FeatureRow
  | b :: bs, lr :: lrs, v5 :: v5s, v21 :: v21s, vr :: vrs, r :: rls, md :: mds =>
    match lr, v5, v21, vr, r, md with
    | some lrv, some _, some v21v, some vrv, some rv, some mdv =>
        ⟨b.date, b.close, lrv, v21v, vrv, rv, mdv⟩ ::
          dropnaRows bs lrs v5s v21s vrs rls mds
    | _, _, _, _, _, _ => dropnaRows bs lrs v5s v21s vrs rls mds
  | _, _, _, _, _, _, _ => []

/-- compute_features (src/tools/regime_tool.py, lines 74-105). -/
def compute_features (env : Env) (df : List Bar) : List FeatureRow :=
  let closes : List FV := df.map fun b => some b.close
  let log_return := (List.zipWith fvDiv closes (seriesShift1 closes)).map (logFV env)
  let vol_5d := rollingStd env.sqrt 5 log_return
  let vol_21d := rollingStd env.sqrt 21 log_return
  let volRatio := List.zipWith fvDiv vol_5d vol_21d
  let delta := seriesDiff closes
  let gain := delta.map fun d => if fvGt d (some 0) then d else some 0
  let loss := delta.map fun d => if fvLt d (some 0) then fvNeg d else some 0
  let avg_gain := rollingMean 14 gain
  let avg_loss := rollingMean 14 loss
  let rs := List.zipWith fvDiv avg_gain avg_loss
  let rsi := rs.map fun r => fvSub (some 100) (fvDiv (some 100) (fvAdd (some 1) r))
  let ma_20 := rollingMean 20 closes
  let ma_distance := List.zipWith fvDiv (List.zipWith fvSub closes ma_20) ma_20
  dropnaRows df log_return vol_5d vol_21d volRatio rsi ma_distance

/-- Regime labels for the five-state model (src/tools/regime_tool.py,
lines 33-39). -/
def REGIME_LABELS : List (Nat × String) :=
  [(0, "Strong Bull"), (1, "Calm Bull"), (2, "Neutral"),
   (3, "Bear / High Volatility"), (4, "Crisis")]

def lookupNat {α : Type} : List (Nat × α) → Nat → Option α
  | [], _ => none
  | (k, v) :: rest, key => if k = key then some v else lookupNat rest key

/-- The labels dict built in detect_market_regime (lines 163-168). -/
def labelsFor (n : Nat) : List (Nat × String) :=
  if n = 5 then REGIME_LABELS
  else (List.range n).map fun k => (k, "Regime " ++ toString k)

/-- labels.get(i, f"Regime i"). -/
def labelsGet (labels : List (Nat × String)) (k : Nat) : String :=
  (lookupNat labels k).getD ("Regime " ++ toString k)

/-- os.path.expanduser("~/Desktop/MLProjects/market-regime-detection"). -/
def HMM_PROJECT_PATH (env : Env) : String :=
  env.home ++ "/Desktop/MLProjects/market-regime-detection"

def MODEL_PATH (env : Env) : String :=
  HMM_PROJECT_PATH env ++ "/models/hmm_model.pkl"

def SCALER_PATH (env : Env) : String :=
  HMM_PROJECT_PATH env ++ "/models/scaler.pkl"

/-- The regime-probability breakdown (lines 174-177), indexing
current_probs at 0..n-1 (numpy indexing raises when out of range). -/
def probBreakdownAux (labels : List (Nat × String)) (probs : List Rat) :
    List Nat → Except String (List (String × J))
  | [] => .ok []
  | idx :: rest => do
      let p ← pyIndex probs idx
      let tail ← probBreakdownAux labels probs rest
      .ok ((labelsGet labels idx, J.f (some (pyRound (p * 100) 1))) :: tail)

/-- The recent regime history (lines 180-187): for i in
range(-min(10, len(regimes)), 0), read df.index[i] and regimes[i]. -/
def buildRecentAux (feat : List FeatureRow) (regimes : List Nat)
    (labels : List (Nat × String)) : List Nat → Except String (List J)
  | [] => .ok []
  | k :: rest => do
      let row ← ilocNeg feat k
      let rg ← ilocNeg regimes k
      let tail ← buildRecentAux feat regimes labels rest
      .ok (J.obj [("date", J.s row.date),
        ("regime", J.s (labelsGet labels rg))] :: tail)

/-- One row of the transition table (lines 206-210), indexing
transmat_[i, j] for j in 0..n-1. -/
def transRowAux (labels : List (Nat × String)) (row : List Rat) :
    List Nat → Except String (List (String × J))
  | [] => .ok []
  | j :: rest => do
      let v ← pyIndex row j
      let tail ← transRowAux labels row rest
      .ok ((labelsGet labels j, J.f (some (pyRound (v * 100) 1))) :: tail)

/-- The transition table (lines 204-210). -/
def transMatrixAux (labels : List (Nat × String)) (tm : List (List Rat))
    (n : Nat) : List Nat → Except String (List (String × J))
  | [] => .ok []
  | idx :: rest => do
      let row ← pyIndex tm idx
      let inner ← transRowAux labels row (List.range n)
      let tail ← transMatrixAux labels tm n rest
      .ok ((labelsGet labels idx, J.obj inner) :: tail)

/-- The body of detect_market_regime inside its try block
(src/tools/regime_tool.py, lines 126-227). -/
def detect_market_regime_body (env : Env) (ticker : String) :
    Except String J := do
  let hmm_model ← env.loadModel
  let scaler ← env.loadScaler
  let df ← env.history ticker "6mo"
  match df with
  | [] => .ok (J.obj [("error",
      J.s ("No data found for ticker \x27" ++ ticker ++ "\x27"))])
  | _ :: _ =>
    let feat := compute_features env df
    if feat.length < 10 then
      .ok (J.obj [("error", J.s "Not enough data after feature computation")])
    else do
      let X := feat.map fun r =>
        [r.log_return, r.vol_21d, r.volRatio, r.rsi, r.ma_distance]
      let Xs ← scaler.transform X
      let regimes ← hmm_model.predict Xs
      let regime_probs ← hmm_model.predict_proba Xs
      let current_regime ← ilocNeg regimes 1
      let current_probs ← ilocNeg regime_probs 1
      let n_states := hmm_model.n_components
      let labels := labelsFor n_states
      let current_label := labelsGet labels current_regime
      let prob_breakdown ← probBreakdownAux labels current_probs
        (List.range n_states)
      let m := min 10 regimes.length
      let recent_regimes ← buildRecentAux feat regimes labels
        ((List.range m).map fun j => m - j)
      let latest ← ilocNeg feat 1
      let current_features := J.obj [
        ("log_return", J.f (some (pyRound (latest.log_return * 100) 3))),
        ("volatility_21d", J.f (some (pyRound (latest.vol_21d * 100) 2))),
        ("vol_ratio", J.f (some (pyRound latest.volRatio 3))),
        ("rsi", J.f (some (pyRound latest.rsi 1))),
        ("ma_distance_pct", J.f (some (pyRound (latest.ma_distance * 100) 2)))]
      let last_10 := regimes.drop (regimes.length - 10)
      let stability := (last_10.filter fun r => r == current_regime).length
      let transition_matrix ← transMatrixAux labels hmm_model.transmat n_states
        (List.range n_states)
      let note :=
        if pyUpper ticker ≠ "SPY" then
          "Regime detection is most accurate for SPY (S&P 500) since the model was trained on S&P 500 data. Results for other tickers are approximate."
        else
          "Model is running on its native index (S&P 500) — highest accuracy."
      .ok (J.obj [
        ("ticker", J.s (pyUpper ticker)),
        ("model_info", J.s ("Gaussian HMM with " ++ toString n_states ++
          " states, trained on 20 years of S&P 500 data")),
        ("current_regime", J.s current_label),
        ("regime_confidence_pct", J.obj prob_breakdown),
        ("regime_stability", J.s (toString stability ++
          "/10 days in current regime")),
        ("current_features", current_features),
        ("recent_regime_history", J.arr recent_regimes),
        ("transition_probabilities_from_current",
          (lookupDict transition_matrix current_label).getD (J.obj [])),
        ("note", J.s note)])

/-- detect_market_regime (src/tools/regime_tool.py, lines 110-230): the
two artifact-existence checks return error payloads before the try
block; everything else runs inside try/except Exception. -/
def detect_market_regime (env : Env) (ticker : String) : J :=
  if env.modelExists = false then
    J.obj [("error", J.s ("HMM model not found at " ++ MODEL_PATH env ++
      ". Make sure the market-regime-detection project is at " ++
      HMM_PROJECT_PATH env))]
  else if env.scalerExists = false then
    J.obj [("error", J.s ("Scaler not found at " ++ SCALER_PATH env ++
      ". Make sure the market-regime-detection project is at " ++
      HMM_PROJECT_PATH env))]
  else
    match detect_market_regime_body env ticker with
    | .ok d => d
    | .error e => J.obj [("error", J.s ("Regime detection failed: " ++ e))]

/-- A registered tool: the keyword parameters its Python signature
requires, the ones that carry defaults, and the handler itself.  run
receives the raw keyword mapping; it is invoked only after the keyword
binding of handler(**tool_input) succeeded. -/
structure ToolHandler where
  required : List String
  optional : List String
  run : Env → List (String × String) → J

/-- Keyword extraction with a Python default value. -/
def argD (input : List (String × String)) (key dflt : String) : String :=
  (lookupDict input key).getD dflt

def get_stock_data_handler : ToolHandler :=
  ⟨["ticker"], ["period"], fun env input =>
    get_stock_data env (argD input "ticker" "") (argD input "period" "3mo")⟩

def get_company_info_handler : ToolHandler :=
  ⟨["ticker"], [], fun env input =>
    get_company_info env (argD input "ticker" "")⟩

def get_technical_indicators_handler : ToolHandler :=
  ⟨["ticker"], [], fun env input =>
    get_technical_indicators env (argD input "ticker" "")⟩

def detect_market_regime_handler : ToolHandler :=
  ⟨[], ["ticker"], fun env input =>
    detect_market_regime env (argD input "ticker" "SPY")⟩

def get_stock_news_handler : ToolHandler :=
  ⟨["ticker"], [], fun env input =>
    get_stock_news env (argD input "ticker" "")⟩

/-- The market tool group's dispatcher (src/tools/market_tools.py,
lines 231-235). -/
def MARKET_HANDLERS : List (String × ToolHandler) :=
  [("get_stock_data", get_stock_data_handler),
   ("get_company_info", get_company_info_handler),
   ("get_technical_indicators", get_technical_indicators_handler)]

/-- Adding one key to a Python dict, as a dict literal does: an existing
key keeps its position and is silently overwritten, a new key is
appended.  No duplicate is ever rejected or reported. -/
def pyDictUpdate {α : Type} : List (String × α) → String → α → List (String × α)
  | [], key, v => [(key, v)]
  | (k, w) :: rest, key, v =>
      if k = key then (k, v) :: rest else (k, w) :: pyDictUpdate rest key v

/-- The combined registry (src/tools/__init__.py, lines 11-15): the dict
literal spreads MARKET_HANDLERS and then adds the regime and news
handlers one key at a time. -/
def TOOL_HANDLERS : List (String × ToolHandler) :=
  pyDictUpdate
    (pyDictUpdate MARKET_HANDLERS "detect_market_regime" detect_market_regime_handler)
    "get_stock_news" get_stock_news_handler

/-- The TypeError raised by handler(**tool_input) when the keyword
mapping does not bind to the handler's signature: an unexpected keyword,
or a missing required keyword.  none means binding succeeds. -/
def bindError (h : ToolHandler) (input : List (String × String)) : Option String :=
  match input.find? (fun kv =>
      !(h.required.contains kv.1 || h.optional.contains kv.1)) with
  | some kv => some ("TypeError: unexpected keyword argument \x27" ++ kv.1 ++ "\x27")
  | none =>
    match h.required.find? (fun k => !((input.map Prod.fst).contains k)) with
    | some k => some ("TypeError: missing required argument \x27" ++ k ++ "\x27")
    | none => none

/-- execute_tool (src/tools/__init__.py, lines 18-25).  An unknown tool
name is turned into a compact json error payload; otherwise the handler
is invoked as handler(**tool_input) — there is no try/except here, so a
keyword-binding TypeError propagates (.error) — and a successful result
is serialised with json.dumps(result, indent=2, default=str). -/
def execute_tool (env : Env) (tool_name : String)
    (tool_input : List (String × String)) : Except String String :=
  match lookupDict TOOL_HANDLERS tool_name with
  | none => .ok (dumps (J.obj [("error", J.s ("Unknown tool: " ++ tool_name))]))
  | some handler =>
    match bindError handler tool_input with
    | some e => .error e
    | none => .ok (dumpsIndent2 (handler.run env tool_input))

/-- A content block of a completion response: the API delivers Text and
ToolUse blocks (only Text blocks carry a .text attribute). -/
inductive RespBlock where
  | text (body : String)
  | toolUse (id : String) (name : String) (input : List (String × String))

/-- A completion response: its stop reason and ordered content blocks. -/
structure Response where
  stop_reason : String
  content : List RespBlock

/-- A block inside a conversation message: the response blocks echoed
into an assistant message, or a tool_result block built by the loop. -/
inductive ContentBlock where
  | text (body : String)
  | toolUse (id : String) (name : String) (input : List (String × String))
  | toolResult (tool_use_id : String) (content : String)

/-- Message content: a plain string or a sequence of blocks. -/
inductive MsgContent where
  | str (s : String)
  | blocks (bs : List ContentBlock)

/-- One conversation entry: role and content. -/
structure Message where
  role : String
  content : MsgContent

def respToCB : RespBlock → ContentBlock
  | .text b => .text b
  | .toolUse i n inp => .toolUse i n inp

/-- The per-round tool execution of run_agent (src/agent.py, lines
120-140): walk the response blocks in order, execute each tool_use via
execute_tool and collect a tool_result dict carrying the block's id.
A TypeError escaping execute_tool aborts the round (.error). -/
def toolResultsOf (env : Env) : List RespBlock → Except String (List ContentBlock)
  | [] => .ok []
  | .text _ :: rest => toolResultsOf env rest
  | .toolUse i n inp :: rest => do
      let result ← execute_tool env n inp
      let tail ← toolResultsOf env rest
      .ok (.toolResult i result :: tail)

/-- The end_turn extraction of run_agent (src/agent.py, lines 149-152):
final_text starts empty and appends block.text for every block that has
a text attribute, in order. -/
def finalTextFold (acc : String) : List RespBlock → String
  | [] => acc
  | .text t :: rest => finalTextFold (acc ++ t) rest
  | .toolUse _ _ _ :: rest => finalTextFold acc rest

def finalTextOf (bs : List RespBlock) : String :=
  finalTextFold "" bs

/-- Maximum number of tool-use loops (src/agent.py, line 70). -/
def MAX_ITERATIONS : Nat := 10

/-- The agentic for-loop of run_agent (src/agent.py, lines 100-163),
with the remaining iteration count as fuel: fuel 0 is the fall-through
return after range(MAX_ITERATIONS) is exhausted.  The completion client
is modelled as a function of the request's message list. -/
def runAgentLoop (env : Env) (client : List Message → Response) :
    Nat → List Message → Except String (String × List Message)
  | 0, messages =>
      .ok ("Agent reached maximum iterations without completing.", messages)
  | n + 1, messages =>
    let response := client messages
    if response.stop_reason = "tool_use" then
      let messages1 := messages ++
        [Message.mk "assistant" (MsgContent.blocks (response.content.map respToCB))]
      match toolResultsOf env response.content with
      | .error e => .error e
      | .ok tool_results =>
          runAgentLoop env client n
            (messages1 ++ [Message.mk "user" (MsgContent.blocks tool_results)])
    else if response.stop_reason = "end_turn" then
      .ok (finalTextOf response.content,
        messages ++
          [Message.mk "assistant" (MsgContent.blocks (response.content.map respToCB))])
    else
      .ok ("Agent stopped unexpectedly: " ++ response.stop_reason, messages)

/-- run_agent (src/agent.py, lines 73-163): a None history becomes [],
the user message is appended as a user Message, then the loop runs for
at most MAX_ITERATIONS request/response round-trips. -/
def run_agent (env : Env) (client : List Message → Response)
    (user_message : String) (conversation_history : Option (List Message)) :
    Except String (String × List Message) :=
  let history := match conversation_history with
    | none => []
    | some h => h
  runAgentLoop env client MAX_ITERATIONS
    (history ++ [Message.mk "user" (MsgContent.str user_message)])

/-- A concrete external world in which every external call raises with
message "boom" (model artifacts exist on disk, but loading them fails). -/
def envErr : Env :=
  ⟨fun _ _ => .error "boom",
   fun _ => .error "boom",
   fun _ => .error "boom",
   true, true,
   .error "boom",
   .error "boom",
   fun q => q, fun q => q,
   fun _ => "1970-01-01 00:00",
   "/home/user"⟩

/-- A concrete news item as the yfinance feed delivers it. -/
def sampleItem (n : Nat) : NewsItem :=
  ⟨some ("Headline " ++ toString n), none, some "Newswire", none,
   some "2025-01-02T03:04:05Z", none, some "A short summary.", none,
   some "https://example.com/a", none⟩

def newsItems10 : List NewsItem :=
  (List.range 10).map sampleItem

/-- A concrete external world whose news feed returns ten articles. -/
def envNews : Env :=
  ⟨fun _ _ => .error "boom",
   fun _ => .ok newsItems10,
   fun _ => .error "boom",
   true, true,
   .error "boom",
   .error "boom",
   fun q => q, fun q => q,
   fun _ => "1970-01-01 00:00",
   "/home/user"⟩

/-- A mock completion client that always answers "tool_use" with no
content blocks. -/
def clientAlwaysTool : List Message → Response :=
  fun _ => ⟨"tool_use", []⟩

/-- A mock completion client that always requests one unknown tool. -/
def clientOneTool : List Message → Response :=
  fun _ => ⟨"tool_use", [RespBlock.toolUse "id1" "nosuch" []]⟩

/-- A mock completion client that ends the turn with two text blocks. -/
def clientAB : List Message → Response :=
  fun _ => ⟨"end_turn", [RespBlock.text "A", RespBlock.text "B"]⟩

/-- A mock completion client that stops with an anomalous stop reason. -/
def clientWeird : List Message → Response :=
  fun _ => ⟨"max_tokens", []⟩

/-- A mock completion client that always requests the registered tool
get_stock_news with an argument mapping that does not bind to its
signature. -/
def clientBadBind : List Message → Response :=
  fun _ => ⟨"tool_use", [RespBlock.toolUse "id1" "get_stock_news" [("bogus", "1")]]⟩

theorem strEq_of_data {a b : String} (h : a.data = b.data) : a = b :=
  congrArg String.mk h

theorem escList_append (a b : List Char) :
    escList (a ++ b) = escList a ++ escList b := by
  induction a with
  | nil => rfl
  | cons c cs ih => simp [escList, ih]

theorem jsonEscape_append (a b : String) :
    jsonEscape (a ++ b) = jsonEscape a ++ jsonEscape b := by
  unfold jsonEscape
  rw [String.data_append, escList_append]
  rfl

/-- Whether handler lookup and keyword binding would succeed for a given
call (the hypothesis under which execute_tool cannot raise). -/
def execBindOk (tool_name : String) (tool_input : List (String × String)) : Bool :=
  match lookupDict TOOL_HANDLERS tool_name with
  | none => true
  | some h => (bindError h tool_input).isNone

theorem execute_tool_unknown (env : Env) (tool_name : String)
    (tool_input : List (String × String))
    (h : lookupDict TOOL_HANDLERS tool_name = none) :
    execute_tool env tool_name tool_input =
      .ok (dumps (J.obj [("error", J.s ("Unknown tool: " ++ tool_name))])) := by
  unfold execute_tool
  rw [h]

theorem execute_tool_found (env : Env) (tool_name : String)
    (tool_input : List (String × String)) (handler : ToolHandler)
    (h : lookupDict TOOL_HANDLERS tool_name = some handler) :
    execute_tool env tool_name tool_input =
      (match bindError handler tool_input with
        | some e => Except.error e
        | none => Except.ok (dumpsIndent2 (handler.run env tool_input))) := by
  unfold execute_tool
  rw [h]

/-- Claim C1, counterexample: execute_tool does raise for some input.
The source invokes handler(**tool_input) with no try/except
(src/tools/__init__.py, line 24), so a keyword mapping that does not
bind to the handler's signature raises TypeError: calling the registered
tool get_stock_news with the argument mapping containing only the key
"bogus" escapes as an exception instead of being converted into an
error payload. -/
theorem C1_counterexample :
    execute_tool envErr "get_stock_news" [("bogus", "1")] =
      .error "TypeError: unexpected keyword argument \x27bogus\x27" := rfl

/-- Claim C1 (amended): execute_tool never raises and returns a string
whenever the tool name is unknown or the argument mapping binds to the
looked-up handler's signature; only a keyword-binding failure escapes as
a TypeError.  (The original claim, that no input whatsoever can make
execute raise, is refuted by C1_counterexample.) -/
theorem C1_execute_total_when_bound (env : Env) (tool_name : String)
    (tool_input : List (String × String))
    (h : execBindOk tool_name tool_input = true) :
    ∃ s, execute_tool env tool_name tool_input = .ok s := by
  unfold execBindOk at h
  cases hl : lookupDict TOOL_HANDLERS tool_name with
  | none => exact ⟨_, execute_tool_unknown env tool_name tool_input hl⟩
  | some handler =>
      rw [hl] at h
      have h2 : (bindError handler tool_input).isNone = true := h
      rw [execute_tool_found env tool_name tool_input handler hl]
      cases hb : bindError handler tool_input with
      | none => exact ⟨_, rfl⟩
      | some e => rw [hb] at h2; simp [Option.isNone] at h2

theorem C1_witness :
    execBindOk "get_stock_news" [("ticker", "AAPL")] = true ∧
    ∃ s, execute_tool envErr "get_stock_news" [("ticker", "AAPL")] = .ok s :=
  ⟨rfl, C1_execute_total_when_bound envErr "get_stock_news"
    [("ticker", "AAPL")] rfl⟩

/-- Claim C3 (code_bug): the registry composition in
src/tools/__init__.py, lines 11-15 is a plain dict literal, so
registering two tools under the same name is neither rejected nor
reported: updating a group that already holds the key "get_stock_news"
with the news-group registration of the same name silently keeps only
the later handler.  The composition has no error outcome at all, so the
required startup rejection cannot occur. -/
theorem C3_merge_silently_overwrites :
    pyDictUpdate [("get_stock_news", detect_market_regime_handler)]
      "get_stock_news" get_stock_news_handler =
      [("get_stock_news", get_stock_news_handler)] := rfl

/-- Claim C6: for every tool name missing from the registry and every
argument mapping, execute_tool returns (without raising) exactly the
compact json payload containing "Unknown tool: <name>". -/
theorem C6_unknown_tool (env : Env) (tool_name : String)
    (tool_input : List (String × String))
    (h : lookupDict TOOL_HANDLERS tool_name = none) :
    execute_tool env tool_name tool_input =
      .ok ("\x7b\"error\": \"Unknown tool: " ++ jsonEscape tool_name ++ "\"\x7d") := by
  rw [execute_tool_unknown env tool_name tool_input h]
  congr 1
  have hd : dumps (J.obj [("error", J.s ("Unknown tool: " ++ tool_name))]) =
      "\x7b" ++ (qstr "error" ++ ": " ++ qstr ("Unknown tool: " ++ tool_name)) ++
        "\x7d" := rfl
  have hq : qstr "error" = "\"error\"" := rfl
  have hu : qstr ("Unknown tool: " ++ tool_name) =
      "\"" ++ ("Unknown tool: " ++ jsonEscape tool_name) ++ "\"" := by
    unfold qstr
    rw [jsonEscape_append]
    rw [show jsonEscape "Unknown tool: " = "Unknown tool: " from rfl]
  rw [hd, hq, hu]
  apply strEq_of_data
  have hd8 : ("\x7b\"error\": \"Unknown tool: " : String).data =
      ("\x7b" : String).data ++ (("\"error\"" : String).data ++
        ((": " : String).data ++ (("\"" : String).data ++
          ("Unknown tool: " : String).data))) := rfl
  have hd9 : ("\"\x7d" : String).data =
      ("\"" : String).data ++ ("\x7d" : String).data := rfl
  simp only [String.data_append, hd8, hd9, List.append_assoc,
    List.cons_append, List.singleton_append, List.nil_append]

theorem C6_witness :
    lookupDict TOOL_HANDLERS "frobnicate" = none ∧
    execute_tool envErr "frobnicate" [] =
      .ok "\x7b\"error\": \"Unknown tool: frobnicate\"\x7d" := by
  refine ⟨rfl, ?_⟩
  have h := C6_unknown_tool envErr "frobnicate" [] rfl
  simpa using h

/-- The correlation ids of the tool_use blocks of a response, in order. -/
def toolUseIds (bs : List RespBlock) : List String :=
  bs.filterMap fun b =>
    match b with
    | .toolUse i _ _ => some i
    | _ => none

/-- The correlation ids of the tool_result blocks of a message, in order. -/
def toolResultIds (bs : List ContentBlock) : List String :=
  bs.filterMap fun b =>
    match b with
    | .toolResult i _ => some i
    | _ => none

/-- The text of a Text block (None for a ToolUse block). -/
def textOf : RespBlock → Option String
  | .text t => some t
  | .toolUse _ _ _ => none

theorem toolResultsOf_spec (env : Env) :
    ∀ (blocks : List RespBlock) (rs : List ContentBlock),
      toolResultsOf env blocks = .ok rs →
      toolResultIds rs = toolUseIds blocks ∧
      rs.length = (toolUseIds blocks).length ∧
      ∀ b ∈ rs, ∃ i c, b = ContentBlock.toolResult i c := by
  intro blocks
  induction blocks with
  | nil =>
      intro rs h
      simp [toolResultsOf] at h
      subst h
      simp [toolResultIds, toolUseIds]
  | cons b rest ih =>
      cases b with
      | text t =>
          intro rs h
          have h' : toolResultsOf env rest = .ok rs := h
          obtain ⟨ih1, ih2, ih3⟩ := ih rs h'
          refine ⟨?_, ?_, ih3⟩
          · simpa [toolUseIds, textOf] using ih1
          · simpa [toolUseIds, textOf] using ih2
      | toolUse i n inp =>
          intro rs h
          simp only [toolResultsOf] at h
          cases hex : execute_tool env n inp with
          | error e => rw [hex] at h; simp [Bind.bind, Except.bind] at h
          | ok result =>
              rw [hex] at h
              cases htail : toolResultsOf env rest with
              | error e => rw [htail] at h; simp [Bind.bind, Except.bind] at h
              | ok tail =>
                  rw [htail] at h
                  simp [Bind.bind, Except.bind] at h
                  subst h
                  obtain ⟨ih1, ih2, ih3⟩ := ih tail htail
                  refine ⟨?_, ?_, ?_⟩
                  · simpa [toolResultIds, toolUseIds] using ih1
                  · simpa [toolResultIds, toolUseIds] using ih2
                  · intro x hx
                    cases hx with
                    | head => exact ⟨i, result, rfl⟩
                    | tail _ hmem => exact ih3 x hmem

/-- Claim C2, counterexample: the claim quantifies over every assistant
response with tool-use stop reason, but in a round where a requested
tool's arguments fail to bind, the loop appends the assistant message
carrying its ToolUse blocks (src/agent.py, line 117) and then the
TypeError from execute_tool propagates at src/agent.py, line 132: the
round collects no tool_result, appends no tool-result user message, and
the run aborts — zero ToolResult blocks appended for one ToolUse block,
refuting the claimed equality of counts. -/
theorem C2_counterexample :
    (clientBadBind []).stop_reason = "tool_use" ∧
    toolUseIds (clientBadBind []).content = ["id1"] ∧
    toolResultsOf envErr (clientBadBind []).content =
      .error "TypeError: unexpected keyword argument \x27bogus\x27" ∧
    runAgentLoop envErr clientBadBind 1 [] =
      .error "TypeError: unexpected keyword argument \x27bogus\x27" :=
  ⟨rfl, rfl, rfl, rfl⟩

/-- Claim C2 (amended): whenever an assistant response stops with
"tool_use" and its tool executions all return (in particular whenever
every requested tool call binds), the loop appends the assistant message
and then exactly one new user message whose content is the collected
tool_result blocks — before issuing the next completion request (the
recursive call) — and those tool_result blocks are in bijection with the
response's tool_use blocks: same count, pairwise matching correlation
ids, in the same order.  (The original unrestricted claim is refuted by
C2_counterexample: a round whose execution raises a binding TypeError
appends no ToolResult blocks at all.) -/
theorem C2_tool_round (env : Env) (client : List Message → Response)
    (n : Nat) (messages : List Message)
    (hstop : (client messages).stop_reason = "tool_use")
    (rs : List ContentBlock)
    (hres : toolResultsOf env (client messages).content = .ok rs) :
    runAgentLoop env client (n + 1) messages =
      runAgentLoop env client n
        (messages ++
          [Message.mk "assistant"
            (MsgContent.blocks ((client messages).content.map respToCB))] ++
          [Message.mk "user" (MsgContent.blocks rs)]) ∧
    toolResultIds rs = toolUseIds (client messages).content ∧
    rs.length = (toolUseIds (client messages).content).length ∧
    ∀ b ∈ rs, ∃ i c, b = ContentBlock.toolResult i c := by
  obtain ⟨h1, h2, h3⟩ := toolResultsOf_spec env (client messages).content rs hres
  refine ⟨?_, h1, h2, h3⟩
  simp [runAgentLoop, hstop, hres]

theorem C2_witness :
    (clientOneTool []).stop_reason = "tool_use" ∧
    toolResultsOf envErr (clientOneTool []).content =
      .ok [ContentBlock.toolResult "id1"
        "\x7b\"error\": \"Unknown tool: nosuch\"\x7d"] ∧
    toolResultIds [ContentBlock.toolResult "id1"
        "\x7b\"error\": \"Unknown tool: nosuch\"\x7d"] =
      toolUseIds (clientOneTool []).content :=
  ⟨rfl, rfl,
    (C2_tool_round envErr clientOneTool 2 [] rfl _ rfl).2.1⟩

theorem loopAlwaysTool (env : Env) (client : List Message → Response)
    (hstop : ∀ msgs, (client msgs).stop_reason = "tool_use")
    (hok : ∀ msgs, ∃ rs, toolResultsOf env (client msgs).content = .ok rs) :
    ∀ (fuel : Nat) (msgs : List Message),
      ∃ final, runAgentLoop env client fuel msgs =
        .ok ("Agent reached maximum iterations without completing.", final) ∧
        final.length = msgs.length + 2 * fuel := by
  intro fuel
  induction fuel with
  | zero => intro msgs; exact ⟨msgs, rfl, by omega⟩
  | succ n ih =>
      intro msgs
      obtain ⟨rs, hrs⟩ := hok msgs
      have hstep : runAgentLoop env client (n + 1) msgs =
          runAgentLoop env client n
            (msgs ++
              [Message.mk "assistant"
                (MsgContent.blocks ((client msgs).content.map respToCB))] ++
              [Message.mk "user" (MsgContent.blocks rs)]) := by
        simp [runAgentLoop, hstop msgs, hrs]
      obtain ⟨final, hf, hlen⟩ := ih
        (msgs ++
          [Message.mk "assistant"
            (MsgContent.blocks ((client msgs).content.map respToCB))] ++
          [Message.mk "user" (MsgContent.blocks rs)])
      refine ⟨final, by rw [hstep]; exact hf, ?_⟩
      simp [List.length_append] at hlen
      omega

/-- Claim C4, counterexample: the claim quantifies over every completion
client that answers "tool_use" on every request, but for a client that
always requests a registered tool with an argument mapping that fails to
bind, run_agent raises the binding TypeError in the very first round
(src/agent.py, line 132) and never returns the maximum-iterations
sentinel, refuting the claim as stated. -/
theorem C4_counterexample :
    (∀ msgs, (clientBadBind msgs).stop_reason = "tool_use") ∧
    run_agent envErr clientBadBind "hi" (some []) =
      .error "TypeError: unexpected keyword argument \x27bogus\x27" :=
  ⟨fun _ => rfl, rfl⟩

/-- Claim C4 (amended): when the completion client answers "tool_use" on
every request and the requested executions all return (in particular
whenever every requested tool call binds), run_agent terminates with
exactly the maximum-iterations sentinel message after exactly
MAX_ITERATIONS = 10 request/response round-trips — each round-trip
appends exactly two messages (the assistant response and the tool-result
user message) on top of the history and the initial user message, so the
returned conversation pins the number of rounds — and never loops
further.  (The original claim, with no proviso on the executions, is
refuted by C4_counterexample: a round whose execution raises a binding
TypeError aborts the run with that exception instead of the sentinel.) -/
theorem C4_max_iterations (env : Env) (client : List Message → Response)
    (user_message : String) (history : List Message)
    (hstop : ∀ msgs, (client msgs).stop_reason = "tool_use")
    (hok : ∀ msgs, ∃ rs, toolResultsOf env (client msgs).content = .ok rs) :
    ∃ ms, run_agent env client user_message (some history) =
        .ok ("Agent reached maximum iterations without completing.", ms) ∧
      ms.length = (history.length + 1) + 2 * MAX_ITERATIONS ∧
      MAX_ITERATIONS = 10 := by
  obtain ⟨final, hf, hlen⟩ := loopAlwaysTool env client hstop hok MAX_ITERATIONS
    (history ++ [Message.mk "user" (MsgContent.str user_message)])
  refine ⟨final, hf, ?_, rfl⟩
  simp [List.length_append] at hlen
  omega

theorem C4_witness :
    (∀ msgs, (clientAlwaysTool msgs).stop_reason = "tool_use") ∧
    ∃ ms, run_agent envErr clientAlwaysTool "hi" (some []) =
        .ok ("Agent reached maximum iterations without completing.", ms) ∧
      ms.length = 1 + 2 * MAX_ITERATIONS ∧ MAX_ITERATIONS = 10 := by
  refine ⟨fun _ => rfl, ?_⟩
  obtain ⟨ms, h1, h2, h3⟩ := C4_max_iterations envErr clientAlwaysTool "hi" []
    (fun _ => rfl) (fun _ => ⟨[], rfl⟩)
  exact ⟨ms, h1, by simpa using h2, h3⟩

theorem strFoldl_append_shift (l : List String) :
    ∀ a : String, l.foldl (· ++ ·) a = a ++ l.foldl (· ++ ·) "" := by
  induction l with
  | nil => intro a; simp
  | cons s ts ih =>
      intro a
      simp only [List.foldl_cons]
      rw [ih (a ++ s), ih ("" ++ s)]
      rw [String.empty_append, String.append_assoc]

theorem strJoin_cons (s : String) (l : List String) :
    String.join (s :: l) = s ++ String.join l := by
  simp only [String.join, List.foldl_cons]
  rw [strFoldl_append_shift l ("" ++ s), String.empty_append]

theorem finalTextFold_spec :
    ∀ (bs : List RespBlock) (acc : String),
      finalTextFold acc bs = acc ++ String.join (bs.filterMap textOf) := by
  intro bs
  induction bs with
  | nil => intro acc; simp [finalTextFold, String.join]
  | cons b rest ih =>
      cases b with
      | text t =>
          intro acc
          simp only [finalTextFold, List.filterMap_cons, textOf]
          rw [ih (acc ++ t), strJoin_cons, String.append_assoc]
      | toolUse i n inp =>
          intro acc
          simp only [finalTextFold, List.filterMap_cons, textOf]
          exact ih acc

theorem finalTextOf_spec (bs : List RespBlock) :
    finalTextOf bs = String.join (bs.filterMap textOf) := by
  have h := finalTextFold_spec bs ""
  simpa [finalTextOf, String.empty_append] using h

/-- Claim C5: whenever a completion response carries the final
termination signal "end_turn", the loop returns the concatenation of all
Text blocks of that response, in their original order, and the returned
conversation is the one so far extended with that assistant message; in
particular this holds for run_agent when the response to the initial
request ends the turn. -/
theorem C5_final_answer :
    (∀ (env : Env) (client : List Message → Response) (n : Nat)
      (msgs : List Message),
      (client msgs).stop_reason = "end_turn" →
      runAgentLoop env client (n + 1) msgs =
        .ok (String.join ((client msgs).content.filterMap textOf),
          msgs ++
            [Message.mk "assistant"
              (MsgContent.blocks ((client msgs).content.map respToCB))])) ∧
    (∀ (env : Env) (client : List Message → Response) (user_message : String)
      (history : List Message),
      (client (history ++ [Message.mk "user" (MsgContent.str user_message)])).stop_reason
          = "end_turn" →
      run_agent env client user_message (some history) =
        .ok (String.join
            ((client (history ++
              [Message.mk "user" (MsgContent.str user_message)])).content.filterMap
                textOf),
          history ++ [Message.mk "user" (MsgContent.str user_message)] ++
            [Message.mk "assistant"
              (MsgContent.blocks ((client (history ++
                [Message.mk "user" (MsgContent.str user_message)])).content.map
                  respToCB))])) := by
  have hloop : ∀ (env : Env) (client : List Message → Response) (n : Nat)
      (msgs : List Message),
      (client msgs).stop_reason = "end_turn" →
      runAgentLoop env client (n + 1) msgs =
        .ok (String.join ((client msgs).content.filterMap textOf),
          msgs ++
            [Message.mk "assistant"
              (MsgContent.blocks ((client msgs).content.map respToCB))]) := by
    intro env client n msgs h
    simp [runAgentLoop, h, finalTextOf_spec]
  refine ⟨hloop, ?_⟩
  intro env client user_message history h
  exact hloop env client 9 (history ++ [Message.mk "user" (MsgContent.str user_message)]) h

theorem C5_witness :
    (clientAB [Message.mk "user" (MsgContent.str "q")]).stop_reason = "end_turn" ∧
    run_agent envErr clientAB "q" (some []) =
      .ok ("AB",
        [Message.mk "user" (MsgContent.str "q"),
         Message.mk "assistant"
           (MsgContent.blocks [ContentBlock.text "A", ContentBlock.text "B"])]) := by
  refine ⟨rfl, ?_⟩
  have h := C5_final_answer.2 envErr clientAB "q" [] rfl
  simpa using h

/-- Claim C7: whenever a completion response carries a termination
signal that is neither "tool_use" nor "end_turn", the loop terminates
without raising, returning the diagnostic string that embeds the signal
value together with the conversation accumulated so far (which is
returned unchanged, so the session can continue); in particular this
holds for run_agent when the response to the initial request is
anomalous. -/
theorem C7_anomalous :
    (∀ (env : Env) (client : List Message → Response) (n : Nat)
      (msgs : List Message),
      (client msgs).stop_reason ≠ "tool_use" →
      (client msgs).stop_reason ≠ "end_turn" →
      runAgentLoop env client (n + 1) msgs =
        .ok ("Agent stopped unexpectedly: " ++ (client msgs).stop_reason, msgs)) ∧
    (∀ (env : Env) (client : List Message → Response) (user_message : String)
      (history : List Message),
      (client (history ++ [Message.mk "user" (MsgContent.str user_message)])).stop_reason
          ≠ "tool_use" →
      (client (history ++ [Message.mk "user" (MsgContent.str user_message)])).stop_reason
          ≠ "end_turn" →
      run_agent env client user_message (some history) =
        .ok ("Agent stopped unexpectedly: " ++
            (client (history ++
              [Message.mk "user" (MsgContent.str user_message)])).stop_reason,
          history ++ [Message.mk "user" (MsgContent.str user_message)])) := by
  have hloop : ∀ (env : Env) (client : List Message → Response) (n : Nat)
      (msgs : List Message),
      (client msgs).stop_reason ≠ "tool_use" →
      (client msgs).stop_reason ≠ "end_turn" →
      runAgentLoop env client (n + 1) msgs =
        .ok ("Agent stopped unexpectedly: " ++ (client msgs).stop_reason, msgs) := by
    intro env client n msgs h1 h2
    simp [runAgentLoop, h1, h2]
  refine ⟨hloop, ?_⟩
  intro env client user_message history h1 h2
  exact hloop env client 9
    (history ++ [Message.mk "user" (MsgContent.str user_message)]) h1 h2

theorem C7_witness :
    (clientWeird [Message.mk "user" (MsgContent.str "q")]).stop_reason ≠ "tool_use" ∧
    (clientWeird [Message.mk "user" (MsgContent.str "q")]).stop_reason ≠ "end_turn" ∧
    run_agent envErr clientWeird "q" (some []) =
      .ok ("Agent stopped unexpectedly: max_tokens",
        [Message.mk "user" (MsgContent.str "q")]) := by
  refine ⟨by decide, by decide, ?_⟩
  have h := C7_anomalous.2 envErr clientWeird "q" [] (by decide) (by decide)
  simpa using h

theorem loopAppendOnly (env : Env) (client : List Message → Response) :
    ∀ (fuel : Nat) (msgs : List Message) (t : String) (conv : List Message),
      runAgentLoop env client fuel msgs = .ok (t, conv) →
      ∃ rest, conv = msgs ++ rest := by
  intro fuel
  induction fuel with
  | zero =>
      intro msgs t conv h
      simp [runAgentLoop] at h
      exact ⟨[], by simp [h.2]⟩
  | succ n ih =>
      intro msgs t conv h
      by_cases h1 : (client msgs).stop_reason = "tool_use"
      · cases hres : toolResultsOf env (client msgs).content with
        | error e => simp [runAgentLoop, h1, hres] at h
        | ok rs =>
            have hstep : runAgentLoop env client (n + 1) msgs =
                runAgentLoop env client n
                  (msgs ++
                    [Message.mk "assistant"
                      (MsgContent.blocks ((client msgs).content.map respToCB))] ++
                    [Message.mk "user" (MsgContent.blocks rs)]) := by
              simp [runAgentLoop, h1, hres]
            rw [hstep] at h
            obtain ⟨rest, hr⟩ := ih _ t conv h
            refine ⟨[Message.mk "assistant"
              (MsgContent.blocks ((client msgs).content.map respToCB)),
              Message.mk "user" (MsgContent.blocks rs)] ++ rest, ?_⟩
            simpa [List.append_assoc] using hr
      · by_cases h2 : (client msgs).stop_reason = "end_turn"
        · simp [runAgentLoop, h1, h2] at h
          exact ⟨[Message.mk "assistant"
            (MsgContent.blocks ((client msgs).content.map respToCB))],
            by simp [← h.2]⟩
        · simp [runAgentLoop, h1, h2] at h
          exact ⟨[], by simp [← h.2]⟩

/-- Claim C9: run_agent returns the pair (final text, updated
conversation), and the conversation is only ever extended by appending:
whenever the call returns, the conversation history passed in is an
unchanged prefix of the returned conversation (the Lean model's values
are immutable, matching the source, which never mutates a message after
adding it and builds messages = conversation_history + [...] without
touching the caller's list). -/
theorem C9_append_only (env : Env) (client : List Message → Response)
    (user_message : String) (history : List Message) (t : String)
    (conv : List Message)
    (h : run_agent env client user_message (some history) = .ok (t, conv)) :
    ∃ rest, conv = history ++ rest := by
  have h' : runAgentLoop env client MAX_ITERATIONS
      (history ++ [Message.mk "user" (MsgContent.str user_message)]) =
      .ok (t, conv) := h
  obtain ⟨rest, hr⟩ := loopAppendOnly env client MAX_ITERATIONS _ t conv h'
  exact ⟨[Message.mk "user" (MsgContent.str user_message)] ++ rest,
    by simpa [List.append_assoc] using hr⟩

theorem C9_witness :
    run_agent envErr clientAB "q"
        (some [Message.mk "user" (MsgContent.str "hello")]) =
      .ok ("AB",
        [Message.mk "user" (MsgContent.str "hello"),
         Message.mk "user" (MsgContent.str "q"),
         Message.mk "assistant"
           (MsgContent.blocks [ContentBlock.text "A", ContentBlock.text "B"])]) ∧
    ∃ rest,
      [Message.mk "user" (MsgContent.str "hello"),
       Message.mk "user" (MsgContent.str "q"),
       Message.mk "assistant"
         (MsgContent.blocks [ContentBlock.text "A", ContentBlock.text "B"])] =
      [Message.mk "user" (MsgContent.str "hello")] ++ rest :=
  ⟨rfl, C9_append_only envErr clientAB "q"
    [Message.mk "user" (MsgContent.str "hello")] "AB" _ rfl⟩

/-- An external world in which the HMM model file is absent. -/
def envNoModel : Env :=
  ⟨fun _ _ => .error "boom",
   fun _ => .error "boom",
   fun _ => .error "boom",
   false, true,
   .error "boom",
   .error "boom",
   fun q => q, fun q => q,
   fun _ => "1970-01-01 00:00",
   "/home/user"⟩

/-- An external world in which the scaler file is absent. -/
def envNoScaler : Env :=
  ⟨fun _ _ => .error "boom",
   fun _ => .error "boom",
   fun _ => .error "boom",
   true, false,
   .error "boom",
   .error "boom",
   fun q => q, fun q => q,
   fun _ => "1970-01-01 00:00",
   "/home/user"⟩

/-- Claim C8: every failure arising inside a tool handler's own logic is
caught at the handler boundary and reduced to an error payload of the
form obj [("error", message)]; it never escapes as an exception (each
handler is a total function into J by construction).  One conjunct per
handler and, for the regime tool, per missing-artifact early return. -/
theorem C8_handlers_catch :
    (∀ (env : Env) (ticker period e : String),
      get_stock_data_body env ticker period = .error e →
      get_stock_data env ticker period = J.obj [("error", J.s e)]) ∧
    (∀ (env : Env) (ticker e : String),
      get_company_info_body env ticker = .error e →
      get_company_info env ticker = J.obj [("error", J.s e)]) ∧
    (∀ (env : Env) (ticker e : String),
      get_technical_indicators_body env ticker = .error e →
      get_technical_indicators env ticker = J.obj [("error", J.s e)]) ∧
    (∀ (env : Env) (ticker e : String),
      get_stock_news_body env ticker = .error e →
      get_stock_news env ticker =
        J.obj [("error", J.s ("Failed to fetch news: " ++ e))]) ∧
    (∀ (env : Env) (ticker : String),
      env.modelExists = false →
      detect_market_regime env ticker =
        J.obj [("error", J.s ("HMM model not found at " ++ MODEL_PATH env ++
          ". Make sure the market-regime-detection project is at " ++
          HMM_PROJECT_PATH env))]) ∧
    (∀ (env : Env) (ticker : String),
      env.modelExists = true → env.scalerExists = false →
      detect_market_regime env ticker =
        J.obj [("error", J.s ("Scaler not found at " ++ SCALER_PATH env ++
          ". Make sure the market-regime-detection project is at " ++
          HMM_PROJECT_PATH env))]) ∧
    (∀ (env : Env) (ticker e : String),
      env.modelExists = true → env.scalerExists = true →
      detect_market_regime_body env ticker = .error e →
      detect_market_regime env ticker =
        J.obj [("error", J.s ("Regime detection failed: " ++ e))]) := by
  refine ⟨?_, ?_, ?_, ?_, ?_, ?_, ?_⟩
  · intro env ticker period e h
    unfold get_stock_data
    rw [h]
  · intro env ticker e h
    unfold get_company_info
    rw [h]
  · intro env ticker e h
    unfold get_technical_indicators
    rw [h]
  · intro env ticker e h
    unfold get_stock_news
    rw [h]
  · intro env ticker hm
    simp [detect_market_regime, hm]
  · intro env ticker hm hs
    simp [detect_market_regime, hm, hs]
  · intro env ticker e hm hs h
    simp [detect_market_regime, hm, hs, h]

theorem C8_witness :
    get_stock_data_body envErr "AAPL" "3mo" = .error "boom" ∧
    get_stock_data envErr "AAPL" "3mo" = J.obj [("error", J.s "boom")] ∧
    get_company_info envErr "AAPL" = J.obj [("error", J.s "boom")] ∧
    get_technical_indicators envErr "AAPL" = J.obj [("error", J.s "boom")] ∧
    get_stock_news envErr "AAPL" =
      J.obj [("error", J.s "Failed to fetch news: boom")] ∧
    detect_market_regime envNoModel "SPY" =
      J.obj [("error", J.s ("HMM model not found at " ++ MODEL_PATH envNoModel ++
        ". Make sure the market-regime-detection project is at " ++
        HMM_PROJECT_PATH envNoModel))] ∧
    detect_market_regime envNoScaler "SPY" =
      J.obj [("error", J.s ("Scaler not found at " ++ SCALER_PATH envNoScaler ++
        ". Make sure the market-regime-detection project is at " ++
        HMM_PROJECT_PATH envNoScaler))] ∧
    detect_market_regime envErr "SPY" =
      J.obj [("error", J.s "Regime detection failed: boom")] :=
  ⟨rfl,
   C8_handlers_catch.1 envErr "AAPL" "3mo" "boom" rfl,
   C8_handlers_catch.2.1 envErr "AAPL" "boom" rfl,
   C8_handlers_catch.2.2.1 envErr "AAPL" "boom" rfl,
   C8_handlers_catch.2.2.2.1 envErr "AAPL" "boom" rfl,
   C8_handlers_catch.2.2.2.2.1 envNoModel "SPY" rfl,
   C8_handlers_catch.2.2.2.2.2.1 envNoScaler "SPY" rfl rfl,
   C8_handlers_catch.2.2.2.2.2.2 envErr "SPY" "boom" rfl rfl rfl⟩

/-- Claim C10: whenever the news feed fetch succeeds, get_stock_news
returns at most 8 articles — exactly the first (most recent) min 8
(feed length) entries — with the article_count field always equal to
the length of the articles list; an empty feed yields article_count 0
and an empty articles list rather than an error. -/
theorem C10_news_count (env : Env) (ticker : String) (items : List NewsItem)
    (h : env.news ticker = .ok items) :
    (items ≠ [] →
      jGet (get_stock_news env ticker) "article_count" =
        some (J.i ((min 8 items.length : Nat) : Int)) ∧
      (∃ l, jGet (get_stock_news env ticker) "articles" = some (J.arr l) ∧
        l.length = min 8 items.length) ∧
      min 8 items.length ≤ 8) ∧
    (items = [] →
      jGet (get_stock_news env ticker) "article_count" = some (J.i 0) ∧
      jGet (get_stock_news env ticker) "articles" = some (J.arr [])) := by
  constructor
  · intro hne
    cases items with
    | nil => exact absurd rfl hne
    | cons it rest =>
        have hsn : get_stock_news env ticker =
            J.obj [("ticker", J.s (pyUpper ticker)),
              ("article_count",
                J.i ((((it :: rest).take 8).map (buildArticle env)).length)),
              ("articles", J.arr (((it :: rest).take 8).map (buildArticle env)))] := by
          simp [get_stock_news, get_stock_news_body, h, Bind.bind, Except.bind]
        rw [hsn]
        refine ⟨?_, ⟨((it :: rest).take 8).map (buildArticle env), ?_, ?_⟩, ?_⟩
        · simp only [jGet, lookupDict]
          norm_num
          simp [List.length_map, List.length_take]
          omega
        · simp [jGet, lookupDict]
        · simp [List.length_map, List.length_take]
          omega
        · exact Nat.min_le_left 8 _
  · intro he
    subst he
    have hsn : get_stock_news env ticker =
        J.obj [("ticker", J.s (pyUpper ticker)),
          ("article_count", J.i 0),
          ("articles", J.arr []),
          ("note", J.s "No recent news found for this ticker.")] := by
      simp [get_stock_news, get_stock_news_body, h, Bind.bind, Except.bind]
    rw [hsn]
    constructor
    · simp [jGet, lookupDict]
    · simp [jGet, lookupDict]

theorem C10_witness :
    envNews.news "AAPL" = .ok newsItems10 ∧
    newsItems10.length = 10 ∧
    jGet (get_stock_news envNews "AAPL") "article_count" = some (J.i 8) ∧
    ∃ l, jGet (get_stock_news envNews "AAPL") "articles" = some (J.arr l) ∧
      l.length = 8 := by
  have hlen : newsItems10.length = 10 := rfl
  have hne : newsItems10 ≠ [] := by
    intro hcon
    rw [hcon] at hlen
    simp at hlen
  obtain ⟨h1, _⟩ := C10_news_count envNews "AAPL" newsItems10 rfl
  obtain ⟨ha, ⟨l, hb, hc⟩, _⟩ := h1 hne
  refine ⟨rfl, hlen, ?_, ⟨l, hb, ?_⟩⟩
  · rw [ha, hlen]
    norm_num
  · rw [hc, hlen]
    norm_num
